import Mathlib

/-!
Shallow embedding of the `rust-sdlang` repository (src/src/scanner.rs,
src/src/parser.rs) and proofs about its lexical scanner and
recursive-descent parser.

Conventions of the embedding:
* `usize` indices are `Nat`; all sources in scope are ASCII, so the byte
  offsets produced by `CharIndices` coincide with character positions in
  the `List Char` view of the source.
* Loops that the Rust code runs without a termination guarantee are given
  an explicit fuel argument; a result of `none` models an execution that
  does not return (either one of the scanner's genuine infinite loops, or
  fuel exhaustion).  For every terminating execution a fuel of
  `source.length + 1` is sufficient, since each loop iteration consumes at
  least one character.
* Rust panics (slice indexing out of bounds, `Option::unwrap` on `None`,
  `Result::unwrap` on `Err`) are modelled as `none` on the scanner side
  and as an explicit `panic` outcome on the parser side.
-/

set_option autoImplicit false

namespace Sdlang

/-- `Token` from src/src/scanner.rs: the committed scanner's token type.
Span-bearing variants carry `(start, end)` byte offsets; `Error` carries
only a static message (no span). -/
inductive Token where
  | True
  | False
  | Null
  | On
  | Off
  | Equal
  | Semicolon
  | Error (msg : String)
  | String (s e : Nat)
  | Identifier (s e : Nat)
  | Float64Double (s e : Nat)
  | Date (s e : Nat)
  | Decimal128 (s e : Nat)
  | Number (s e : Nat)
  | Float64 (s e : Nat)
  | Float32 (s e : Nat)
  | Long (s e : Nat)
deriving DecidableEq, Repr

/-- `Scanner` from src/src/scanner.rs.  The `Peekable<CharIndices>` cursor
is modelled by `pos`: the Rust `current` field is `source.get? pos`
(paired with its index) and the iterator holds positions `pos + 1` and
beyond.  `startc` is the Rust `start` field. -/
structure Scanner where
  source : List Char
  startc : Option (Nat × Char)
  pos : Nat
deriving DecidableEq, Repr

/-- `Scanner::new`: the constructor pulls the first char, making it both
`start` and `current`. -/
def Scanner.new (src : String) : Scanner :=
  { source := src.toList
    startc := (src.toList.get? 0).map fun c => (0, c)
    pos := 0 }

/-- `self.peek()`: the current char with its index. -/
def peek (s : Scanner) : Option (Nat × Char) :=
  match s.source.get? s.pos with
  | some c => some (s.pos, c)
  | none => none

/-- `self.peek_next()`. -/
def peekNext (s : Scanner) : Option (Nat × Char) :=
  match s.source.get? (s.pos + 1) with
  | some c => some (s.pos + 1, c)
  | none => none

/-- Move the cursor one char forward (the state change of `advance`). -/
def bump (s : Scanner) : Scanner :=
  { s with pos := s.pos + 1 }

/-- `self.advance()`: returns the current char and moves on. -/
def advance (s : Scanner) : Option (Nat × Char) × Scanner :=
  (peek s, bump s)

/-- `self.range()`: `(start index, end index)` where the end is the
current index, or `source.len()` at end of input.  The Rust code calls
`self.start.unwrap()`; `start` is always set when `range` runs (scan_token
assigns it before dispatching), so the default `0` is never observable. -/
def range (s : Scanner) : Nat × Nat :=
  ((s.startc.map Prod.fst).getD 0, min s.pos s.source.length)

/-- `self.match_char(target)`: consume and report `true` on a match. -/
def matchChar (s : Scanner) (target : Char) : Bool × Scanner :=
  match peek s with
  | some (_, ch) => if ch = target then (true, bump s) else (false, s)
  | none => (false, s)

/-- `self.is_alpha(chr)` over `Option<(usize, char)>`. -/
def isAlphaOpt : Option (Nat × Char) → Bool
  | some (_, ch) => ch.isAlpha
  | none => false

/-- `self.is_digit(chr)` over `Option<(usize, char)>`. -/
def isDigitOpt : Option (Nat × Char) → Bool
  | some (_, ch) => ch.isDigit
  | none => false

/-- Rust `char::is_whitespace` restricted to the ASCII range (all sources
in scope are ASCII; the Unicode whitespace code points are not modelled). -/
def rustIsWhitespace (c : Char) : Bool :=
  c = ' ' ∨ c = '\t' ∨ c = '\n' ∨ c = '\x0b' ∨ c = '\x0c' ∨ c = '\r'

/-- `self.is_whitespace(chr)`: note the Rust code returns `true` for
`None`. -/
def isWhitespaceOpt : Option (Nat × Char) → Bool
  | some (_, ch) => rustIsWhitespace ch
  | none => true

/-- `self.matches_source(start, end, len, rest)`.  The Rust body slices
`source[start .. start + len]` before testing the length condition, so it
panics (`none`) whenever `start + len` exceeds the source length. -/
def matchesSource (s : Scanner) (start e len : Nat) (rest : List Char) :
    Option Bool :=
  if start + len ≤ s.source.length then
    some (decide (e - start = len ∧ (s.source.drop start).take len = rest))
  else none

/-- The inner comment-skipping loop shared by the `'/'`, `'#'` and `'-'`
arms of `skip_whitespace`: consume while the char is neither `;` nor a
newline. -/
def commentLoop : Nat → Scanner → Option Scanner
  | 0, _ => none
  | fuel + 1, s =>
    match peek s with
    | some (_, ch) =>
      if ch ≠ ';' ∧ ch ≠ '\n' then commentLoop fuel (bump s) else some s
    | none => some s

/-- `Scanner::skip_whitespace`.  Faithful to the committed code: space,
tab and carriage return are consumed; a backslash immediately followed by
a newline consumes both; `//`, `#` and `--` start comment skipping via
`commentLoop`; a backslash or `-` whose follower does not complete the
pattern leaves the state unchanged and re-enters the loop, which in Rust
is an infinite loop and here exhausts the fuel (`none`). -/
def skipWhitespace : Nat → Scanner → Option Scanner
  | 0, _ => none
  | fuel + 1, s =>
    match peek s with
    | none => some s
    | some (_, ch) =>
      if ch = ' ' ∨ ch = '\r' ∨ ch = '\t' then
        skipWhitespace fuel (bump s)
      else if ch = '\\' then
        match peekNext s with
        | some (_, ch2) =>
          if ch2 = '\n' then skipWhitespace fuel (bump (bump s))
          else skipWhitespace fuel s
        | none => some s
      else if ch = '/' then
        match peekNext s with
        | some (_, ch2) =>
          if ch2 = '/' then
            (commentLoop fuel (bump s)).bind (skipWhitespace fuel)
          else some s
        | none => some s
      else if ch = '#' then
        (commentLoop fuel s).bind (skipWhitespace fuel)
      else if ch = '-' then
        match peekNext s with
        | some (_, ch2) =>
          if ch2 = '-' then (commentLoop fuel s).bind (skipWhitespace fuel)
          else skipWhitespace fuel s
        | none => some s
      else some s

/-- `Scanner::try_keyword`: compare the lexeme (first char plus a literal
slice of the remainder) against `true`, `false`, `null`, `on`, `off`.
`none` models the panics of `start.unwrap()` and of an out-of-bounds
`matches_source` slice. -/
def tryKeyword (s : Scanner) : Option Token :=
  match s.startc with
  | none => none
  | some (_, ch) =>
    let (start, e) := range s
    if ch = 't' then
      match matchesSource s (start + 1) e 3 ['r', 'u', 'e'] with
      | none => none
      | some true => some Token.True
      | some false => some (Token.Identifier start e)
    else if ch = 'f' then
      match matchesSource s (start + 1) e 4 ['a', 'l', 's', 'e'] with
      | none => none
      | some true => some Token.False
      | some false => some (Token.Identifier start e)
    else if ch = 'n' then
      match matchesSource s (start + 1) e 3 ['u', 'l', 'l'] with
      | none => none
      | some true => some Token.Null
      | some false => some (Token.Identifier start e)
    else if ch = 'o' then
      if e - start > 1 then
        match matchesSource s (start + 1) e 1 ['n'] with
        | none => none
        | some true => some Token.On
        | some false =>
          match matchesSource s (start + 1) e 2 ['f', 'f'] with
          | none => none
          | some true => some Token.Off
          | some false => some (Token.Identifier start e)
      else some (Token.Identifier start e)
    else some (Token.Identifier start e)

/-- The consuming loop of `Scanner::identifier`: advance while the char is
alphabetic or a digit (and nothing else -- the committed scanner does not
accept `_`, `:`, `$` or `-` inside identifiers). -/
def identifierLoop : Nat → Scanner → Option Scanner
  | 0, _ => none
  | fuel + 1, s =>
    if isAlphaOpt (peek s) || isDigitOpt (peek s) then
      identifierLoop fuel (bump s)
    else some s

/-- `Scanner::identifier`. -/
def identifier (fuel : Nat) (s : Scanner) : Option (Token × Scanner) :=
  (identifierLoop fuel s).bind fun s1 =>
    (tryKeyword s1).map fun t => (t, s1)

/-- The digit-consuming loop used twice inside `Scanner::number`. -/
def digitLoop : Nat → Scanner → Option Scanner
  | 0, _ => none
  | fuel + 1, s =>
    if isDigitOpt (peek s) then digitLoop fuel (bump s) else some s

/-- The `while !self.is_whitespace(self.peek())` loop of the date branch
of `Scanner::number`. -/
def notWsLoop : Nat → Scanner → Option Scanner
  | 0, _ => none
  | fuel + 1, s =>
    if isWhitespaceOpt (peek s) then some s else notWsLoop fuel (bump s)

/-- `Scanner::number`, including the `L` suffix, the fractional part with
its `d` / `f` / `BD` suffixes, and the date branch.  There is no exponent
handling in the committed scanner. -/
def number (fuel : Nat) (s : Scanner) : Option (Token × Scanner) :=
  (digitLoop fuel s).bind fun s1 =>
    let (start, en) := range s1
    let (hitL, s2) := matchChar s1 'L'
    if hitL then some (Token.Long start (en + 1), s2)
    else
      match peek s2 with
      | some (_, c) =>
        if c = '.' then
          match peekNext s2 with
          | some (_, next) =>
            if next.isDigit then
              (digitLoop fuel (bump s2)).bind fun s4 =>
                let (start2, en2) := range s4
                let (hitD, s5) := matchChar s4 'd'
                if hitD then some (Token.Float64 start2 (en2 + 1), s5)
                else
                  let (hitF, s6) := matchChar s5 'f'
                  if hitF then some (Token.Float32 start2 (en2 + 1), s6)
                  else
                    let (hitB, s7) := matchChar s6 'B'
                    if hitB then
                      match peek s7 with
                      | some (_, cd) =>
                        if cd = 'D' then
                          some (Token.Decimal128 start2 (en2 + 2), bump s7)
                        else some (Token.Error "Unknown number type B.", s7)
                      | none => some (Token.Error "Unknown number type B.", s7)
                    else some (Token.Float64Double start2 en2, s7)
            else some (Token.Error "'.' must be followed by digit.", s2)
          | none => some (Token.Error "Number cannot end with '.'", s2)
        else if c = '/' ∨ c = ':' then
          match peekNext s2 with
          | some (_, next) =>
            if next.isDigit then
              (notWsLoop fuel (bump s2)).bind fun s4 =>
                match peekNext s4 with
                | some (_, n2) =>
                  if n2.isDigit then
                    (notWsLoop fuel (bump s4)).bind fun s6 =>
                      let (st, e2) := range s6
                      some (Token.Date st e2, s6)
                  else
                    let (st, e2) := range s4
                    some (Token.Date st e2, s4)
                | none =>
                  let (st, e2) := range s4
                  some (Token.Date st e2, s4)
            else some (Token.Error "Invalid date.", s2)
          | none => some (Token.Error "Invalid date.", s2)
        else some (Token.Number start en, s2)
      | none => some (Token.Number start en, s2)

/-- The consuming loop of `Scanner::string`: advance while the char is not
a double quote. -/
def stringLoop : Nat → Scanner → Option Scanner
  | 0, _ => none
  | fuel + 1, s =>
    match peek s with
    | some (_, ch) =>
      if ch ≠ '"' then stringLoop fuel (bump s) else some s
    | none => some s

/-- `Scanner::string`: consume up to the closing quote; end of input
before it yields `Error("Unterminated string.")`; otherwise the span
excludes both quotes. -/
def string (fuel : Nat) (s : Scanner) : Option (Token × Scanner) :=
  (stringLoop fuel s).bind fun s1 =>
    let (cur, s2) := advance s1
    match cur with
    | none => some (Token.Error "Unterminated string.", s2)
    | some _ =>
      let (st, en) := range s2
      some (Token.String (st + 1) (en - 1), s2)

/-- `self.start = self.current`: the state change at the top of
`scan_token`. -/
def setStart (s : Scanner) : Scanner :=
  { s with startc := peek s }

/-- The body of `Scanner::scan_token` after `skip_whitespace` and the
`start` assignment have run: consume one char and classify. -/
def scanDispatch (fuel : Nat) (s1 : Scanner) :
    Option (Option Token × Scanner) :=
  match peek s1 with
  | none => some (none, bump s1)
  | some (_, ch) =>
    let s2 := bump s1
    if ch.isAlpha then (identifier fuel s2).map fun (t, s3) => (some t, s3)
    else if ch.isDigit then (number fuel s2).map fun (t, s3) => (some t, s3)
    else if ch = '"' then (string fuel s2).map fun (t, s3) => (some t, s3)
    else if ch = '=' then some (some Token.Equal, s2)
    else if ch = ';' then
      match peek s2 with
      | some (_, c2) =>
        if c2 = '\n' then some (some Token.Semicolon, bump s2)
        else some (some Token.Semicolon, s2)
      | none => some (some Token.Semicolon, s2)
    else if ch = '\n' then some (some Token.Semicolon, s2)
    else some (some (Token.Error "Unexpected character."), s2)

/-- The body of `Scanner::scan_token` after `skip_whitespace` has run. -/
def scanAfterSkip (fuel : Nat) (s0 : Scanner) :
    Option (Option Token × Scanner) :=
  scanDispatch fuel (setStart s0)

/-- `Scanner::scan_token`: skip insignificant input, then classify and
consume one lexeme.  The inner `Option Token` is the Rust return value
(`none` = end of input); the outer `Option` models divergence/panic. -/
def scanToken (fuel : Nat) (s : Scanner) : Option (Option Token × Scanner) :=
  (skipWhitespace fuel s).bind (scanAfterSkip fuel)

/-- The tokenizing driver used by the scanner's unit tests: call
`scan_token` until it reports end of input, collecting the tokens. -/
def tokenizeLoop : Nat → Nat → Scanner → Option (List Token)
  | 0, _, _ => none
  | n + 1, fuel, s =>
    (scanToken fuel s).bind fun (t?, s1) =>
      match t? with
      | none => some []
      | some t => (tokenizeLoop n fuel s1).map (t :: ·)

/-- Tokenize a whole source string.  `length + 1` fuel is enough for every
terminating scan, since each produced token and each skipping step
consumes at least one character. -/
def tokenize (src : String) : Option (List Token) :=
  tokenizeLoop (src.length + 1) (src.length + 1) (Scanner.new src)


/-!
## Parser (src/src/parser.rs)

`parser.rs` consumes a scanner interface (`next()`, `curr_line()`,
`source_length()`, `source_slice`) whose `Token` type carries `(start,
end, line)` on every variant and includes `Integer`, `Float64`,
`LeftBrace`, `RightBrace` and `Eof` -- a scanner variant that is not among
the repository's source files (the committed `scanner.rs` has neither
brace tokens nor an `Eof` variant and does not typecheck against
`parser.rs`).  The token type below is therefore reconstructed from the
patterns `parser.rs` matches on, with spans and lines as the spec
describes; everything else in this section is translated from
`parser.rs` itself.
-/

/-- Modelled from the spec: the token type of the scanner variant that
`parser.rs` was written against (absent from src/).  Every variant
carries `(start, end, line)`, matching the patterns `parser.rs` uses:
`Identifier`, `Integer`, `Float64`, `String`, `True`, `False`, `Null`,
`Equal`, `Semicolon`, `LeftBrace`, `RightBrace`, `Error(msg, ..)` and the
`Eof` sentinel. -/
inductive PToken where
  | True (s e l : Nat)
  | False (s e l : Nat)
  | Null (s e l : Nat)
  | Equal (s e l : Nat)
  | Semicolon (s e l : Nat)
  | LeftBrace (s e l : Nat)
  | RightBrace (s e l : Nat)
  | Error (msg : String) (s e l : Nat)
  | String (s e l : Nat)
  | Identifier (s e l : Nat)
  | Integer (s e l : Nat)
  | Float64 (s e l : Nat)
  | Eof (s e l : Nat)
deriving DecidableEq, Repr

/-- Modelled from the spec: `Token::position()`, the accessor `parser.rs`
calls to anchor diagnostics -- the `(start, end, line)` triple of any
token. -/
def PToken.position : PToken → Nat × Nat × Nat
  | .True s e l => (s, e, l)
  | .False s e l => (s, e, l)
  | .Null s e l => (s, e, l)
  | .Equal s e l => (s, e, l)
  | .Semicolon s e l => (s, e, l)
  | .LeftBrace s e l => (s, e, l)
  | .RightBrace s e l => (s, e, l)
  | .Error _ s e l => (s, e, l)
  | .String s e l => (s, e, l)
  | .Identifier s e l => (s, e, l)
  | .Integer s e l => (s, e, l)
  | .Float64 s e l => (s, e, l)
  | .Eof s e l => (s, e, l)

/-- Whether a token is the `Eof` sentinel (the `Token::Eof(..)` pattern). -/
def PToken.isEof : PToken → Bool
  | .Eof _ _ _ => true
  | _ => false

/-- `Value` from src/src/parser.rs.  `Value::Float(f64)` is represented by
the parsed lexeme text: the claims never inspect float numerics, and IEEE
evaluation is outside the embedding. -/
inductive Value where
  | String (v : String)
  | Integer (v : Int)
  | Float (lexeme : String)
  | Boolean (v : Bool)
  | Null
deriving DecidableEq, Repr

/-- `Tag` from src/src/parser.rs.  `HashMap<String, Value>` is modelled as
an association list with last-write-wins insertion (`hashInsert`); its
length and key set agree with the hash map's. -/
inductive Tag where
  | mk (name : String) (values : List Value)
      (attributes : List (String × Value)) (children : List Tag)

/-- The `name` field of a `Tag`. -/
def Tag.name : Tag → String
  | .mk n _ _ _ => n

/-- The `values` field of a `Tag`. -/
def Tag.values : Tag → List Value
  | .mk _ v _ _ => v

/-- The `attributes` field of a `Tag`. -/
def Tag.attributes : Tag → List (String × Value)
  | .mk _ _ a _ => a

/-- The `children` field of a `Tag`. -/
def Tag.children : Tag → List Tag
  | .mk _ _ _ c => c

/-- `Tag::new(name)`. -/
def Tag.new (name : String) : Tag :=
  Tag.mk name [] [] []

/-- `HashMap::insert`: replace the value at an existing key, otherwise add
the pair. -/
def hashInsert (m : List (String × Value)) (k : String) (v : Value) :
    List (String × Value) :=
  match m with
  | [] => [(k, v)]
  | (k', v') :: rest =>
    if k' = k then (k, v) :: rest else (k', v') :: hashInsert rest k v

/-- `struct Error(&'static str, usize, usize, usize)` from parser.rs. -/
structure PError where
  msg : String
  start : Nat
  stop : Nat
  line : Nat
deriving DecidableEq, Repr

/-- The outcome of a parser operation: a Rust panic, an `Err(Error)`, or
an `Ok` result. -/
inductive POut (α : Type) where
  | panic
  | err (e : PError)
  | ok (a : α)

/-- `Parser` from src/src/parser.rs, holding the source (for
`source_slice` / `source_length`), the not-yet-pulled token stream
(`scanner.next()` pops its head), the `previous` and `current` lookahead
slots, and the line `curr_line()` reports once the stream is exhausted
(the scanner then rests at end of input). -/
structure PState where
  source : List Char
  tokens : List PToken
  previous : PToken
  current : PToken
  eofLine : Nat

/-- Rust `&source[s..e]` on an ASCII source: `none` models the panic on an
out-of-range slice. -/
def sliceTxt (source : List Char) (s e : Nat) : Option String :=
  if s ≤ e ∧ e ≤ source.length then
    some (String.mk ((source.drop s).take (e - s)))
  else none

/-- `str::parse::<i32>`: an optional sign, then one or more digits, value
within `i32` range. -/
def parseI32 (cs : List Char) : Option Int :=
  let (neg, ds) :=
    match cs with
    | '-' :: rest => (true, rest)
    | '+' :: rest => (false, rest)
    | _ => (false, cs)
  if ds = [] ∨ ¬ ds.all Char.isDigit then none
  else
    let v : Int := (ds.foldl (fun n c => 10 * n + (c.toNat - '0'.toNat)) 0 : Nat)
    let v := if neg then -v else v
    if -2147483648 ≤ v ∧ v ≤ 2147483647 then some v else none

/-- Drop one leading sign character, for `parseF64ok`. -/
def stripSign : List Char → List Char
  | '+' :: rest => rest
  | '-' :: rest => rest
  | cs => cs

/-- The syntax `str::parse::<f64>` accepts (`inf`/`infinity`/`nan`
case-insensitively, or a decimal mantissa with an optional exponent);
`literal()` unwraps the parse, so a `Float64` token whose slice falls
outside this syntax panics. -/
def parseF64ok (cs : List Char) : Bool :=
  let body := stripSign cs
  let lower := body.map Char.toLower
  if lower = ['i', 'n', 'f'] ∨ lower = ['i', 'n', 'f', 'i', 'n', 'i', 't', 'y'] ∨
      lower = ['n', 'a', 'n'] then true
  else
    let (ip, r1) := body.span Char.isDigit
    let (fp, r2) :=
      match r1 with
      | '.' :: rest =>
        let (f, r) := rest.span Char.isDigit
        (some f, r)
      | _ => (none, r1)
    let okMantissa : Bool :=
      !ip.isEmpty || (match fp with | some f => !f.isEmpty | none => false)
    match r2 with
    | [] => okMantissa
    | c :: rest =>
      if c = 'e' ∨ c = 'E' then
        let rest := stripSign rest
        let (ed, r3) := rest.span Char.isDigit
        okMantissa && !ed.isEmpty && r3.isEmpty
      else false

/-- `Parser::new(scanner)`: `previous = Eof(0, 0, 1)`, `current` is the
first token of the stream or `Eof(0, 1, 1)`. -/
def mkParser (source : List Char) (toks : List PToken) (eofLine : Nat) :
    PState :=
  match toks with
  | [] =>
    { source := source, tokens := [], previous := PToken.Eof 0 0 1
      current := PToken.Eof 0 1 1, eofLine := eofLine }
  | t :: rest =>
    { source := source, tokens := rest, previous := PToken.Eof 0 0 1
      current := t, eofLine := eofLine }

/-- `Parser::advance`: return the old `current`, pull the next token, and
at stream end substitute `Eof(span, span + 1, curr_line())` where `span =
cmp::min(0, source_length() - 2)` -- with `usize` arithmetic that `min`
is always `0` (the subtraction also underflows for sources shorter than
two bytes, a debug-build panic; release semantics are modelled).  Note
the Rust code never writes the `previous` field after construction. -/
def pAdvance (p : PState) : PToken × PState :=
  let previous := p.current
  let span := min 0 (p.source.length - 2)
  match p.tokens with
  | t :: rest => (previous, { p with tokens := rest, current := t })
  | [] =>
    (previous, { p with current := PToken.Eof span (span + 1) p.eofLine })

/-- `Parser::identifier`: `Ok(Some(text))` on an `Identifier` token
(advancing past it), `Err` on a lexical `Error` token, `Ok(None)`
otherwise. -/
def pIdentifier (p : PState) : POut (Option String × PState) :=
  match p.current with
  | PToken.Identifier s e _ =>
    let p1 := (pAdvance p).2
    match sliceTxt p1.source s e with
    | none => POut.panic
    | some txt => POut.ok (some txt, p1)
  | PToken.Error msg s e l => POut.err ⟨msg, s, e, l⟩
  | _ => POut.ok (none, p)

/-- `Parser::literal`: convert a literal-shaped token to a `Value`.  The
`Integer` arm is `str::parse::<i32>(..).unwrap()` -- it panics (`panic`)
whenever the digits exceed `i32` range; the `Float64` arm unwraps
`str::parse::<f64>`. -/
def pLiteral (p : PState) : POut (Option Value × PState) :=
  match p.current with
  | PToken.Integer s e _ =>
    let p1 := (pAdvance p).2
    match sliceTxt p1.source s e with
    | none => POut.panic
    | some txt =>
      match parseI32 txt.toList with
      | none => POut.panic
      | some n => POut.ok (some (Value.Integer n), p1)
  | PToken.String s e _ =>
    let p1 := (pAdvance p).2
    match sliceTxt p1.source s e with
    | none => POut.panic
    | some txt => POut.ok (some (Value.String txt), p1)
  | PToken.Float64 s e _ =>
    let p1 := (pAdvance p).2
    match sliceTxt p1.source s e with
    | none => POut.panic
    | some txt =>
      if parseF64ok txt.toList then POut.ok (some (Value.Float txt), p1)
      else POut.panic
  | PToken.True _ _ _ =>
    let p1 := (pAdvance p).2
    POut.ok (some (Value.Boolean true), p1)
  | PToken.False _ _ _ =>
    let p1 := (pAdvance p).2
    POut.ok (some (Value.Boolean false), p1)
  | PToken.Null _ _ _ =>
    let p1 := (pAdvance p).2
    POut.ok (some Value.Null, p1)
  | PToken.Error msg s e l => POut.err ⟨msg, s, e, l⟩
  | _ => POut.ok (none, p)

/-- `Parser::attribute`: an identifier, then `=`, then a literal. -/
def pAttribute (p : PState) : POut (Option (String × Value) × PState) :=
  match pIdentifier p with
  | POut.panic => POut.panic
  | POut.err e => POut.err e
  | POut.ok (none, p1) => POut.ok (none, p1)
  | POut.ok (some n, p1) =>
    match p1.current with
    | PToken.Equal s e l =>
      let p2 := (pAdvance p1).2
      match pLiteral p2 with
      | POut.panic => POut.panic
      | POut.err er => POut.err er
      | POut.ok (some v, p3) => POut.ok (some (n, v), p3)
      | POut.ok (none, _) => POut.err ⟨"Expect literal after '='.", s, e, l⟩
    | PToken.Eof s e l => POut.err ⟨"Unexpected identifier.", s, e, l⟩
    | t =>
      let (s, e, l) := t.position
      POut.err ⟨"Expect '=' after attribute name.", s, e, l⟩

/-- `Parser::attribute_or_literal`: try an attribute, fall back to a bare
literal; `Some(name) `/`None` in the first component tells the caller
which production matched. -/
def pAttributeOrLiteral (p : PState) :
    POut (Option (Option String × Value) × PState) :=
  match pAttribute p with
  | POut.panic => POut.panic
  | POut.err e => POut.err e
  | POut.ok (some (n, v), p1) => POut.ok (some (some n, v), p1)
  | POut.ok (none, p1) =>
    match pLiteral p1 with
    | POut.panic => POut.panic
    | POut.err e => POut.err e
    | POut.ok (some v, p2) => POut.ok (some (none, v), p2)
    | POut.ok (none, p2) => POut.ok (none, p2)

/-- The `loop` of `Parser::tag_declaration` that routes
`attribute_or_literal` results into `values` / `attributes` until the
current token is `;`, `{` (returned via `ok` for the terminator match) or
`Eof` (an error). -/
def pTagBody : Nat → Tag → PState → Option (POut (Tag × PState))
  | 0, _, _ => none
  | fuel + 1, tag, p =>
    match p.current with
    | PToken.Semicolon _ _ _ => some (POut.ok (tag, p))
    | PToken.LeftBrace _ _ _ => some (POut.ok (tag, p))
    | PToken.Eof s e l =>
      some (POut.err ⟨"Expect literal value or attribute.", s, e, l⟩)
    | _ =>
      match pAttributeOrLiteral p with
      | POut.panic => some POut.panic
      | POut.err er => some (POut.err er)
      | POut.ok (some (some n, v), p1) =>
        match tag with
        | Tag.mk nm vs ats ch =>
          pTagBody fuel (Tag.mk nm vs (hashInsert ats n v) ch) p1
      | POut.ok (some (none, v), p1) =>
        match tag with
        | Tag.mk nm vs ats ch => pTagBody fuel (Tag.mk nm (vs ++ [v]) ats ch) p1
      | POut.ok (none, p1) =>
        let (s, e, l) := p1.current.position
        some (POut.err ⟨"Expect literal value or attribute.", s, e, l⟩)

/-- The two mutually recursive pieces of `Parser::tag_declaration`:
`decl` is the function itself, `children` is the `{ ... }` loop that
parses nested declarations until `}`. -/
inductive PCall where
  | decl (p : PState)
  | children (tag : Tag) (p : PState)

/-- `Parser::tag_declaration` (lines 191-269) as a fuel-indexed evaluator
over `PCall`.  `decl`: read the identifier, run the body loop, then match
the terminator -- `;` enforces the non-empty invariant and is consumed;
`{` is consumed and hands over to `children`; anything else (the loop
only breaks on `;` / `{`, so these arms are unreachable) is an error.
`children`: parse nested declarations until `}` (consumed) or `Eof`. -/
def pRun : Nat → PCall → Option (POut (Tag × PState))
  | 0, _ => none
  | fuel + 1, PCall.decl p =>
    match pIdentifier p with
    | POut.panic => some POut.panic
    | POut.err e => some (POut.err e)
    | POut.ok (none, p1) =>
      let (s, e, l) := p1.current.position
      some (POut.err ⟨"Expect identifier.", s, e, l⟩)
    | POut.ok (some name, p1) =>
      match pTagBody (fuel + 1) (Tag.new name) p1 with
      | none => none
      | some POut.panic => some POut.panic
      | some (POut.err e) => some (POut.err e)
      | some (POut.ok (tag, p2)) =>
        match p2.current with
        | PToken.Semicolon s e l =>
          if tag.values.length = 0 ∧ tag.attributes.length = 0 then
            some (POut.err ⟨"Expect literal value or attribute.", s, e, l⟩)
          else
            let p3 := (pAdvance p2).2
            some (POut.ok (tag, p3))
        | PToken.LeftBrace _ _ _ =>
          let p3 := (pAdvance p2).2
          pRun fuel (PCall.children tag p3)
        | PToken.Eof s e l => some (POut.err ⟨"Expect ';' or '\x7b'.", s, e, l⟩)
        | t =>
          let (s, e, l) := t.position
          some (POut.err ⟨"Expect ';' or '\x7b'.", s, e, l⟩)
  | fuel + 1, PCall.children tag p =>
    match p.current with
    | PToken.RightBrace _ _ _ =>
      let p1 := (pAdvance p).2
      some (POut.ok (tag, p1))
    | PToken.Eof s e l =>
      some (POut.err ⟨"Expect '\x7d' after tag body.", s, e, l⟩)
    | _ =>
      match pRun fuel (PCall.decl p) with
      | none => none
      | some POut.panic => some POut.panic
      | some (POut.err e) => some (POut.err e)
      | some (POut.ok (child, p1)) =>
        match tag with
        | Tag.mk nm vs ats ch =>
          pRun fuel (PCall.children (Tag.mk nm vs ats (ch ++ [child])) p1)

/-- `Parser::tag_declaration`. -/
def pTagDeclaration (fuel : Nat) (p : PState) : Option (POut (Tag × PState)) :=
  pRun fuel (PCall.decl p)

/-- `Parser::parse` (lines 307-321): repeatedly run `tag_declaration`,
appending each parsed tag, until `Eof`; on the first `Err` print the
diagnostic (I/O, not modelled) and stop, keeping the tags parsed so far.
The accumulator `tags` is the parser's `self.tags`. -/
def pParse : Nat → PState → List Tag → Option (POut (List Tag))
  | 0, _, _ => none
  | fuel + 1, p, tags =>
    match p.current with
    | PToken.Eof _ _ _ => some (POut.ok tags)
    | _ =>
      match pTagDeclaration (fuel + 1) p with
      | none => none
      | some POut.panic => some POut.panic
      | some (POut.err _) => some (POut.ok tags)
      | some (POut.ok (tag, p1)) => pParse fuel p1 (tags ++ [tag])

/-- `Parser::new` followed by `parse()` over a pre-scanned token stream. -/
def parseTags (source : List Char) (toks : List PToken) (eofLine : Nat)
    (fuel : Nat) : Option (POut (List Tag)) :=
  pParse fuel (mkParser source toks eofLine) []

-- Validation against the unit tests of src/src/scanner.rs.
example : tokenize "1" = some [Token.Number 0 1] := by decide
example : tokenize "1.567" = some [Token.Float64Double 0 5] := by decide
example : tokenize "1.567d" = some [Token.Float64 0 6] := by decide
example : tokenize "1.567f" = some [Token.Float32 0 6] := by decide
example : tokenize "155L" = some [Token.Long 0 4] := by decide
example : tokenize "155.8BD" = some [Token.Decimal128 0 7] := by decide
example : tokenize "\"hello\"" = some [Token.String 1 6] := by decide
example : tokenize "author" = some [Token.Identifier 0 6] := by decide
example :
    tokenize "author  \nage" =
      some [Token.Identifier 0 6, Token.Semicolon, Token.Identifier 9 12] := by
  decide
example :
    tokenize "a\\\nb" = some [Token.Identifier 0 1, Token.Identifier 3 4] := by
  decide
example :
    tokenize "author //comment comment;\nage\n" =
      some [Token.Identifier 0 6, Token.Semicolon, Token.Identifier 26 29,
        Token.Semicolon] := by
  decide
example :
    tokenize "author #comment comment;\nage\n" =
      some [Token.Identifier 0 6, Token.Semicolon, Token.Identifier 25 28,
        Token.Semicolon] := by
  decide
example :
    tokenize "author --comment comment;\nage\n" =
      some [Token.Identifier 0 6, Token.Semicolon, Token.Identifier 26 29,
        Token.Semicolon] := by
  decide
example :
    tokenize "private=true" =
      some [Token.Identifier 0 7, Token.Equal, Token.True] := by decide
example :
    tokenize "off on true false null" =
      some [Token.Off, Token.On, Token.True, Token.False, Token.Null] := by
  decide
example :
    tokenize "5.a" =
      some [Token.Error "'.' must be followed by digit.",
        Token.Error "Unexpected character.", Token.Identifier 2 3] := by
  decide
example :
    tokenize "5." =
      some [Token.Error "Number cannot end with '.'",
        Token.Error "Unexpected character."] := by decide
example :
    tokenize "5.3BF" =
      some [Token.Error "Unknown number type B.", Token.Identifier 4 5] := by
  decide
example : tokenize ";\n" = some [Token.Semicolon] := by decide
example :
    tokenize "a\nb" =
      some [Token.Identifier 0 1, Token.Semicolon, Token.Identifier 2 3] := by
  decide
example : tokenize "13:23:34" = some [Token.Date 0 8] := by decide

-- Validation of the parser embedding on hand-built token streams
-- (the scanner variant parser.rs consumes is absent from src/).
example :
    parseTags "a \x7b b 1; c 2; \x7d".toList
      [PToken.Identifier 0 1 1, PToken.LeftBrace 2 3 1, PToken.Identifier 4 5 1,
        PToken.Integer 6 7 1, PToken.Semicolon 7 8 1, PToken.Identifier 9 10 1,
        PToken.Integer 11 12 1, PToken.Semicolon 12 13 1,
        PToken.RightBrace 14 15 1] 1 20 =
      some (POut.ok [Tag.mk "a" [] []
        [Tag.mk "b" [Value.Integer 1] [] [],
          Tag.mk "c" [Value.Integer 2] [] []]]) := by rfl

example :
    parseTags "a \x7b b; c; \x7d".toList
      [PToken.Identifier 0 1 1, PToken.LeftBrace 2 3 1, PToken.Identifier 4 5 1,
        PToken.Semicolon 5 6 1, PToken.Identifier 7 8 1, PToken.Semicolon 8 9 1,
        PToken.RightBrace 10 11 1] 1 20 =
      some (POut.ok []) := by rfl

example :
    parseTags "a 1; !".toList
      [PToken.Identifier 0 1 1, PToken.Integer 2 3 1, PToken.Semicolon 3 4 1,
        PToken.Error "Unexpected character." 5 6 1] 1 20 =
      some (POut.ok [Tag.mk "a" [Value.Integer 1] [] []]) := by rfl

example :
    parseTags "author \"Kirill Vasiltsov\";".toList
      [PToken.Identifier 0 6 1, PToken.String 8 24 1, PToken.Semicolon 25 26 1]
      1 20 =
      some (POut.ok [Tag.mk "author" [Value.String "Kirill Vasiltsov"] [] []]) := by
  rfl

/-!
## Helper lemmas
-/

theorem peek_setStart (s : Scanner) : peek (setStart s) = peek s := rfl

theorem scanToken_skip (fuel : Nat) (s s1 : Scanner)
    (h : skipWhitespace fuel s = some s1) :
    scanToken fuel s = scanDispatch fuel (setStart s1) := by
  unfold scanToken
  rw [h]
  rfl

theorem scanDispatch_semicolon (fuel i : Nat) (s1 : Scanner)
    (hp : peek s1 = some (i, ';')) :
    ∃ s', scanDispatch fuel s1 = some (some Token.Semicolon, s') := by
  rcases hq : peek (bump s1) with _ | ⟨j, c2⟩
  · exact ⟨bump s1, by simp [scanDispatch, hp, hq]⟩
  · by_cases hc : c2 = '\n'
    · subst hc
      exact ⟨bump (bump s1), by simp [scanDispatch, hp, hq]⟩
    · exact ⟨bump s1, by simp [scanDispatch, hp, hq, hc]⟩

/-!
## C1
-/

/-- C1: counterexample.  The committed scanner tokenizes `\x7b` as
`Error("Unexpected character.")` -- its `Token` type has no brace
variants at all -- contradicting the claim that `\x7b` is always a brace
token and never an `Error` token. -/
theorem c1_counterexample :
    tokenize "\x7b" = some [Token.Error "Unexpected character."] := by decide

/-- C1: amended.  When the next non-skipped character is `=` the scanner
returns `Equal`; when it is `;` it returns `Semicolon` (also consuming an
immediately following newline); `\x7b` and `\x7d` are not recognized and
each yields `Error("Unexpected character.")` (the committed `Token` type
has no brace variants). -/
theorem c1_theorem (fuel i : Nat) (s s1 : Scanner)
    (h : skipWhitespace fuel s = some s1) :
    (peek s1 = some (i, '=') →
      ∃ s', scanToken fuel s = some (some Token.Equal, s')) ∧
    (peek s1 = some (i, ';') →
      ∃ s', scanToken fuel s = some (some Token.Semicolon, s')) ∧
    (peek s1 = some (i, '\x7b') →
      ∃ s', scanToken fuel s =
        some (some (Token.Error "Unexpected character."), s')) ∧
    (peek s1 = some (i, '\x7d') →
      ∃ s', scanToken fuel s =
        some (some (Token.Error "Unexpected character."), s')) := by
  rw [scanToken_skip fuel s s1 h]
  refine ⟨fun hp => ?_, fun hp => ?_, fun hp => ?_, fun hp => ?_⟩
  · exact ⟨bump (setStart s1), by simp [scanDispatch, peek_setStart, hp]⟩
  · exact scanDispatch_semicolon fuel i (setStart s1)
      ((peek_setStart s1).trans hp)
  · exact ⟨bump (setStart s1), by simp [scanDispatch, peek_setStart, hp]⟩
  · exact ⟨bump (setStart s1), by simp [scanDispatch, peek_setStart, hp]⟩

/-- C1: witness for the amended theorem at concrete inputs. -/
theorem c1_witness :
    ∃ s', scanToken 2 (Scanner.new "=") = some (some Token.Equal, s') :=
  (c1_theorem 2 0 (Scanner.new "=") (Scanner.new "=") (by decide)).1 (by decide)

/-!
## C2
-/

theorem commentLoop_stops (fuel : Nat) :
    ∀ s s1, commentLoop fuel s = some s1 →
      peek s1 = none ∨ ∃ i, peek s1 = some (i, ';') ∨ peek s1 = some (i, '\n') := by
  induction fuel with
  | zero =>
    intro s s1 h
    exact absurd h (by simp [commentLoop])
  | succ fuel ih =>
    intro s s1 h
    rw [commentLoop] at h
    rcases hq : peek s with _ | ⟨j, c⟩
    · rw [hq] at h
      injection h with h
      subst h
      exact Or.inl hq
    · simp only [hq] at h
      by_cases hc : c ≠ ';' ∧ c ≠ '\n'
      · rw [if_pos hc] at h
        exact ih (bump s) s1 h
      · rw [if_neg hc] at h
        injection h with h
        subst h
        rcases Decidable.not_and_iff_or_not.mp hc with h1 | h1 <;>
          rw [Decidable.not_not] at h1 <;> subst h1
        · exact Or.inr ⟨j, Or.inl hq⟩
        · exact Or.inr ⟨j, Or.inr hq⟩

/-- C2: counterexample.  A newline is not skipped silently: the scanner
tokenizes it as a `Semicolon` token, so `"a\nb"` has a token between the
two identifiers; and a `;` inside a `//` comment terminates the comment
and is itself tokenized, so tokens are produced from inside the claimed
comment extent of `"a //x;y\nz"`. -/
theorem c2_counterexample :
    tokenize "a\nb" =
        some [Token.Identifier 0 1, Token.Semicolon, Token.Identifier 2 3] ∧
      tokenize "a //x;y\nz" =
        some [Token.Identifier 0 1, Token.Semicolon, Token.Identifier 6 7,
          Token.Semicolon, Token.Identifier 8 9] :=
  ⟨by decide, by decide⟩

/-- C2: amended.  Space, tab and carriage return are consumed silently
before every token; a newline is not silent -- `scan_token` returns a
`Semicolon` token for it (there is no line counter in the committed
scanner); and a comment run started by `//`, `#` or `--` is skipped only
until a `;`, a newline or end of input, so a `;` inside a comment
terminates it and is itself tokenized. -/
theorem c2_theorem :
    (∀ fuel : Nat, ∀ s : Scanner, ∀ i : Nat, ∀ c : Char,
      peek s = some (i, c) → c = ' ' ∨ c = '\r' ∨ c = '\t' →
      skipWhitespace (fuel + 1) s = skipWhitespace fuel (bump s)) ∧
    (∀ fuel i : Nat, ∀ s s1 : Scanner,
      skipWhitespace fuel s = some s1 → peek s1 = some (i, '\n') →
      ∃ s', scanToken fuel s = some (some Token.Semicolon, s')) ∧
    (∀ fuel : Nat, ∀ s s1 : Scanner, commentLoop fuel s = some s1 →
      peek s1 = none ∨ ∃ i, peek s1 = some (i, ';') ∨ peek s1 = some (i, '\n')) ∧
    tokenize "a //x;y\nz" =
      some [Token.Identifier 0 1, Token.Semicolon, Token.Identifier 6 7,
        Token.Semicolon, Token.Identifier 8 9] := by
  refine ⟨?_, ?_, fun fuel s s1 h => commentLoop_stops fuel s s1 h, by decide⟩
  · intro fuel s i c hp hc
    rw [skipWhitespace]
    simp only [hp]
    rw [if_pos hc]
  · intro fuel i s s1 h hp
    rw [scanToken_skip fuel s s1 h]
    exact ⟨bump (setStart s1), by simp [scanDispatch, peek_setStart, hp]⟩

/-- C2: witness for the amended theorem at concrete inputs. -/
theorem c2_witness :
    ∃ s', scanToken 2 (Scanner.new "\n") = some (some Token.Semicolon, s') :=
  c2_theorem.2.1 2 0 (Scanner.new "\n") (Scanner.new "\n") (by decide) (by decide)

/-!
## C3
-/

/-- C3: the claim promises that any Integer token whose text is in i64
range converts successfully and that parsing never crashes, but
`Parser::literal` converts with `str::parse::<i32>(..).unwrap()`: on the
source `"a 3000000000;"` (3000000000 fits i64 but not i32) the whole
parse panics. -/
theorem c3_theorem :
    parseTags "a 3000000000;".toList
      [PToken.Identifier 0 1 1, PToken.Integer 2 12 1, PToken.Semicolon 12 13 1]
      1 20 = some POut.panic := by
  rfl

/-!
## C6
-/

/-- C6: counterexample.  The committed scanner has no exponent handling
(and no `Error("Illegal float.")` message): `"5.6e1"` lexes to a
`Float64Double` token for `5.6` followed by an `Identifier` token for
`e1`, not to a single Float token. -/
theorem c6_counterexample :
    tokenize "5.6e1" =
      some [Token.Float64Double 0 3, Token.Identifier 3 5] := by decide

/-- C6: amended.  A digit run followed by `.` and a mandatory fractional
digit run lexes to a `Float64Double` token (suffixes `d` / `f` / `BD`
give `Float64` / `Float32` / `Decimal128`); exponent markers are not
recognized, so `"1.2 3.4 5.6e1 7.8e+12"` lexes to `Float64Double` spans
`(0,3) (4,7) (8,11) (14,17)` interleaved with `Identifier` tokens for
`e1` and `e`, an `Error("Unexpected character.")` for `+`, and a
`Number` token for `12`. -/
theorem c6_theorem :
    tokenize "1.2 3.4 5.6e1 7.8e+12" =
        some [Token.Float64Double 0 3, Token.Float64Double 4 7,
          Token.Float64Double 8 11, Token.Identifier 11 13,
          Token.Float64Double 14 17, Token.Identifier 17 18,
          Token.Error "Unexpected character.", Token.Number 19 21] ∧
      tokenize "5.6e1" =
        some [Token.Float64Double 0 3, Token.Identifier 3 5] :=
  ⟨by decide, by decide⟩

/-!
## C7
-/

/-- C7: counterexample.  `_` is not an identifier character in the
committed scanner: `"my_zag"` lexes to two identifiers with an
`Error("Unexpected character.")` between them, not to one identifier
covering the whole run. -/
theorem c7_counterexample :
    tokenize "my_zag" =
      some [Token.Identifier 0 2, Token.Error "Unexpected character.",
        Token.Identifier 3 6] := by decide

/-- C7: amended.  An identifier starts with an alphabetic character and
the loop continues exactly while the next character is alphanumeric --
`_`, `:`, `$`, `-` do not continue it: the loop steps on an alphanumeric
char and stops on anything else, so `"mytag9"` is one identifier while
`"my_zag"` splits at the underscore. -/
theorem c7_theorem :
    (∀ fuel : Nat, ∀ s : Scanner,
      (isAlphaOpt (peek s) || isDigitOpt (peek s)) = true →
      identifierLoop (fuel + 1) s = identifierLoop fuel (bump s)) ∧
    (∀ fuel : Nat, ∀ s : Scanner,
      (isAlphaOpt (peek s) || isDigitOpt (peek s)) = false →
      identifierLoop (fuel + 1) s = some s) ∧
    tokenize "mytag9" = some [Token.Identifier 0 6] ∧
    tokenize "my_zag" =
      some [Token.Identifier 0 2, Token.Error "Unexpected character.",
        Token.Identifier 3 6] := by
  refine ⟨?_, ?_, by decide, by decide⟩
  · intro fuel s h
    rw [identifierLoop, if_pos h]
  · intro fuel s h
    rw [identifierLoop, if_neg (by simp [h])]

/-- C7: witness for the amended theorem at a concrete input. -/
theorem c7_witness :
    identifierLoop 2 (Scanner.new "ab") = identifierLoop 1 (bump (Scanner.new "ab")) :=
  c7_theorem.1 1 (Scanner.new "ab") (by decide)

/-!
## C8
-/

/-- C8: counterexample.  `try_keyword` also recognizes `on` and `off`:
the lexeme `on` yields the keyword token `On`, not an `Identifier`. -/
theorem c8_counterexample : tokenize "on" = some [Token.On] := by decide

/-- C8: amended.  The identifier run is compared against the five
reserved words `true`, `false`, `null`, `on`, `off` (first character plus
exact-length literal match); an exact match yields the corresponding
keyword token, and lexemes that fail the match, such as `onn`, `truex`
or `word`, yield `Identifier` tokens. -/
theorem c8_theorem :
    tokenize "true" = some [Token.True] ∧
    tokenize "false" = some [Token.False] ∧
    tokenize "null" = some [Token.Null] ∧
    tokenize "on" = some [Token.On] ∧
    tokenize "off" = some [Token.Off] ∧
    tokenize "onn" = some [Token.Identifier 0 3] ∧
    tokenize "truex" = some [Token.Identifier 0 5] ∧
    tokenize "word" = some [Token.Identifier 0 4] :=
  ⟨by decide, by decide, by decide, by decide, by decide, by decide, by decide,
    by decide⟩

/-!
## C9
-/

/-- C9: counterexample.  `"5.a"` lexes to three tokens, not two: the
committed scanner's error branch does not consume the dot (and its
`Error` tokens carry no span), so after
`Error("'.' must be followed by digit.")` the dot itself becomes
`Error("Unexpected character.")`, and only then comes the identifier. -/
theorem c9_counterexample :
    tokenize "5.a" =
      some [Token.Error "'.' must be followed by digit.",
        Token.Error "Unexpected character.", Token.Identifier 2 3] := by decide

/-- C9: amended.  When a digit run is followed by `.` and a non-digit,
`number` returns `Error("'.' must be followed by digit.")` without
consuming the dot and without a span (`Error` tokens carry only the
message); scanning then resumes at the dot, which yields
`Error("Unexpected character.")`, and then the identifier -- lexical
errors never halt the token stream. -/
theorem c9_theorem :
    (∀ fuel i j : Nat, ∀ s : Scanner, ∀ c : Char,
      peek s = some (i, '.') → peekNext s = some (j, c) → c.isDigit = false →
      number (fuel + 1) s =
        some (Token.Error "'.' must be followed by digit.", s)) ∧
    tokenize "5.a" =
      some [Token.Error "'.' must be followed by digit.",
        Token.Error "Unexpected character.", Token.Identifier 2 3] := by
  refine ⟨?_, by decide⟩
  intro fuel i j s c hp hq hc
  have hd : digitLoop (fuel + 1) s = some s := by
    rw [digitLoop, hp]
    rfl
  rw [number, hd]
  simp [matchChar, hp, hq, hc]

/-- C9: witness for the amended theorem at a concrete input. -/
theorem c9_witness :
    number 3 { source := "5.a".toList, startc := some (0, '5'), pos := 1 } =
      some (Token.Error "'.' must be followed by digit.",
        { source := "5.a".toList, startc := some (0, '5'), pos := 1 }) :=
  c9_theorem.1 2 1 2 _ 'a' (by decide) (by decide) (by decide)

/-!
## C10
-/

/-- C10: the whitespace skipper consumes a backslash immediately followed
by a newline as insignificant input (a line continuation), so that
newline never reaches `scan_token` and produces no token: `"a\\\nb"`
scans to exactly two `Identifier` tokens with spans `(0,1)` and `(3,4)`. -/
theorem c10_theorem :
    (∀ fuel i j : Nat, ∀ s : Scanner,
      peek s = some (i, '\\') → peekNext s = some (j, '\n') →
      skipWhitespace (fuel + 1) s = skipWhitespace fuel (bump (bump s))) ∧
    tokenize "a\\\nb" = some [Token.Identifier 0 1, Token.Identifier 3 4] := by
  refine ⟨?_, by decide⟩
  intro fuel i j s hp hq
  rw [skipWhitespace]
  simp [hp, hq]

/-- C10: witness for the theorem at a concrete input. -/
theorem c10_witness :
    skipWhitespace 2 (Scanner.new "\\\nx") =
      skipWhitespace 1 (bump (bump (Scanner.new "\\\nx"))) :=
  c10_theorem.1 1 0 1 (Scanner.new "\\\nx") (by decide) (by decide)

/-!
## C4
-/

/-- The `{ ... }` children loop only appends to `children`: the tag a
successful `PCall.children` run returns keeps the name, values and
attributes of the tag it was entered with. -/
theorem children_preserve (fuel : Nat) :
    ∀ tag p r p', pRun fuel (PCall.children tag p) = some (POut.ok (r, p')) →
      r.name = tag.name ∧ r.values = tag.values ∧
        r.attributes = tag.attributes := by
  induction fuel with
  | zero =>
    intro tag p r p' h
    exact absurd h (by simp [pRun])
  | succ fuel ih =>
    intro tag p r p' h
    simp only [pRun] at h
    cases hc : p.current
    case RightBrace s e l =>
      simp only [hc, Option.some.injEq, POut.ok.injEq, Prod.mk.injEq] at h
      obtain ⟨h1, h2⟩ := h
      subst h1
      exact ⟨rfl, rfl, rfl⟩
    case Eof s e l =>
      rw [hc] at h
      simp at h
    all_goals (
      simp only [hc] at h
      cases hrec : pRun fuel (PCall.decl p) with
      | none => rw [hrec] at h; simp at h
      | some out =>
        cases out with
        | panic => rw [hrec] at h; simp at h
        | err e => rw [hrec] at h; simp at h
        | ok a =>
          obtain ⟨child, p1⟩ := a
          rw [hrec] at h
          cases tag with
          | mk nm vs ats ch =>
            exact ih (Tag.mk nm vs ats (ch ++ [child])) p1 r p' h)

/-- C4: the terminator invariant as the code enforces it.  First: a
successfully parsed tag with no values and no attributes can only have
been closed by a brace body (the body loop stopped at a `LeftBrace`).
Second: when the body loop stops at a `;` and the tag has no values and
no attributes, `tag_declaration` fails with
`Expect literal value or attribute.` -- so a `;`-closed tag always has at
least one value or attribute.  Third: the spec's boundary example, where
`"a \x7b b 1; c 2; \x7d"` succeeds with two children carrying one value
each while the empty-children variant `"a \x7b b; c; \x7d"` is rejected
(its parse yields no tags). -/
theorem c4_theorem :
    (∀ fuel : Nat, ∀ p : PState, ∀ tag : Tag, ∀ p' : PState,
      pTagDeclaration (fuel + 1) p = some (POut.ok (tag, p')) →
      tag.values = [] → tag.attributes = [] →
      ∃ name p1 tagB p2 s e l,
        pIdentifier p = POut.ok (some name, p1) ∧
        pTagBody (fuel + 1) (Tag.new name) p1 = some (POut.ok (tagB, p2)) ∧
        tagB.values = tag.values ∧ tagB.attributes = tag.attributes ∧
        p2.current = PToken.LeftBrace s e l) ∧
    (∀ fuel : Nat, ∀ p : PState, ∀ name : String, ∀ p1 : PState, ∀ tagB : Tag,
      ∀ p2 : PState, ∀ s e l : Nat,
      pIdentifier p = POut.ok (some name, p1) →
      pTagBody (fuel + 1) (Tag.new name) p1 = some (POut.ok (tagB, p2)) →
      p2.current = PToken.Semicolon s e l →
      tagB.values = [] → tagB.attributes = [] →
      pTagDeclaration (fuel + 1) p =
        some (POut.err ⟨"Expect literal value or attribute.", s, e, l⟩)) ∧
    parseTags "a \x7b b 1; c 2; \x7d".toList
      [PToken.Identifier 0 1 1, PToken.LeftBrace 2 3 1, PToken.Identifier 4 5 1,
        PToken.Integer 6 7 1, PToken.Semicolon 7 8 1, PToken.Identifier 9 10 1,
        PToken.Integer 11 12 1, PToken.Semicolon 12 13 1,
        PToken.RightBrace 14 15 1] 1 20 =
      some (POut.ok [Tag.mk "a" [] []
        [Tag.mk "b" [Value.Integer 1] [] [],
          Tag.mk "c" [Value.Integer 2] [] []]]) ∧
    parseTags "a \x7b b; c; \x7d".toList
      [PToken.Identifier 0 1 1, PToken.LeftBrace 2 3 1, PToken.Identifier 4 5 1,
        PToken.Semicolon 5 6 1, PToken.Identifier 7 8 1, PToken.Semicolon 8 9 1,
        PToken.RightBrace 10 11 1] 1 20 = some (POut.ok []) := by
  refine ⟨?_, ?_, by rfl, by rfl⟩
  · intro fuel p tag p' h hv ha
    simp only [pTagDeclaration, pRun] at h
    cases hid : pIdentifier p with
    | panic => rw [hid] at h; simp at h
    | err e => rw [hid] at h; simp at h
    | ok a =>
      obtain ⟨name?, p1⟩ := a
      cases name? with
      | none => rw [hid] at h; simp at h
      | some name =>
        simp only [hid] at h
        cases hb : pTagBody (fuel + 1) (Tag.new name) p1 with
        | none => rw [hb] at h; simp at h
        | some out =>
          cases out with
          | panic => rw [hb] at h; simp at h
          | err e => rw [hb] at h; simp at h
          | ok a2 =>
            obtain ⟨tagB, p2⟩ := a2
            simp only [hb] at h
            cases hcur : p2.current
            case Semicolon s e l =>
              simp only [hcur] at h
              by_cases hemp :
                  tagB.values.length = 0 ∧ tagB.attributes.length = 0
              · rw [if_pos hemp] at h
                simp at h
              · rw [if_neg hemp] at h
                simp only [Option.some.injEq, POut.ok.injEq,
                  Prod.mk.injEq] at h
                obtain ⟨h1, h2⟩ := h
                subst h1
                exact absurd ⟨by rw [hv]; rfl, by rw [ha]; rfl⟩ hemp
            case LeftBrace s e l =>
              simp only [hcur] at h
              have hpres := children_preserve fuel tagB _ tag p' h
              exact ⟨name, p1, tagB, p2, s, e, l, rfl, hb,
                hpres.2.1.symm, hpres.2.2.symm, hcur⟩
            all_goals (simp only [hcur] at h; simp at h)
  · intro fuel p name p1 tagB p2 s e l hid hb hcur hv ha
    simp only [pTagDeclaration, pRun, hid, hb, hcur]
    rw [if_pos ⟨by rw [hv]; rfl, by rw [ha]; rfl⟩]

/-- C4: witness.  The semicolon-rejection component applied to the
token stream of `"b;"`: a tag with no values and no attributes closed by
`;` is a parse error. -/
theorem c4_witness :
    pTagDeclaration 2
      (mkParser "b;".toList
        [PToken.Identifier 0 1 1, PToken.Semicolon 1 2 1] 1) =
      some (POut.err ⟨"Expect literal value or attribute.", 1, 2, 1⟩) :=
  c4_theorem.2.1 1
    (mkParser "b;".toList [PToken.Identifier 0 1 1, PToken.Semicolon 1 2 1] 1)
    "b"
    { source := "b;".toList, tokens := [], previous := PToken.Eof 0 0 1
      current := PToken.Semicolon 1 2 1, eofLine := 1 }
    (Tag.new "b")
    { source := "b;".toList, tokens := [], previous := PToken.Eof 0 0 1
      current := PToken.Semicolon 1 2 1, eofLine := 1 }
    1 2 1 rfl rfl rfl rfl rfl

/-!
## C5
-/

/-- C5: the document loop of `parse()`.  At `Eof` it stops and returns
the accumulated tags; when `tag_declaration` fails it prints the
diagnostic and stops with exactly the tags accumulated so far (nothing
after the error is consumed); when `tag_declaration` succeeds the parsed
tag is appended and the loop continues.  The concrete conjunct runs the
stream of `"a 1; !"`: the tag completed before the lexical error is
kept, nothing behind the error contributes. -/
theorem c5_theorem :
    (∀ fuel : Nat, ∀ p : PState, ∀ tags : List Tag, ∀ s e l : Nat,
      p.current = PToken.Eof s e l →
      pParse (fuel + 1) p tags = some (POut.ok tags)) ∧
    (∀ fuel : Nat, ∀ p : PState, ∀ tags : List Tag, ∀ er : PError,
      p.current.isEof = false →
      pTagDeclaration (fuel + 1) p = some (POut.err er) →
      pParse (fuel + 1) p tags = some (POut.ok tags)) ∧
    (∀ fuel : Nat, ∀ p : PState, ∀ tags : List Tag, ∀ tag : Tag,
      ∀ p1 : PState,
      p.current.isEof = false →
      pTagDeclaration (fuel + 1) p = some (POut.ok (tag, p1)) →
      pParse (fuel + 1) p tags = pParse fuel p1 (tags ++ [tag])) ∧
    parseTags "a 1; !".toList
      [PToken.Identifier 0 1 1, PToken.Integer 2 3 1, PToken.Semicolon 3 4 1,
        PToken.Error "Unexpected character." 5 6 1] 1 20 =
      some (POut.ok [Tag.mk "a" [Value.Integer 1] [] []]) := by
  refine ⟨?_, ?_, ?_, by rfl⟩
  · intro fuel p tags s e l hc
    simp only [pParse, hc]
  · intro fuel p tags er hne hdecl
    cases hcur : p.current
    case Eof s e l =>
      rw [hcur] at hne
      simp [PToken.isEof] at hne
    all_goals simp only [pParse, hcur, hdecl]
  · intro fuel p tags tag p1 hne hdecl
    cases hcur : p.current
    case Eof s e l =>
      rw [hcur] at hne
      simp [PToken.isEof] at hne
    all_goals simp only [pParse, hcur, hdecl]

/-- C5: witness.  The `Eof` component applied to an empty document. -/
theorem c5_witness : pParse 1 (mkParser [] [] 1) [] = some (POut.ok []) :=
  c5_theorem.1 0 (mkParser [] [] 1) [] 0 1 1 rfl

end Sdlang
